import Mathlib

/-!
Shallow embedding of the SENAI GP-Inovação web crawler
(`src/senaiwebcrawler.py` — listing crawler — and
`src/ideia_senaiwebcrawler.py` — detail crawler), together with proofs
about the extraction pipeline, the pagination resolver, the crawl
controllers and the JSON link loader.

The HTTP transport is modelled as a pure oracle `fetch : String → Option Doc`
(the program is single-threaded and deterministic given the responses), and
the BeautifulSoup document tree is modelled by the structures each extractor
actually queries.  Python exceptions are modelled with `Except` / `Option`
exactly where the source raises or catches them.
-/

/-- Whether the first character list is a prefix of the second. -/
def isPrefixL : List Char → List Char → Bool
  | [], _ => true
  | _ :: _, [] => false
  | a :: as, b :: bs => a == b && isPrefixL as bs

/-- Whether `pat` occurs as a contiguous sublist of the second argument. -/
def containsL (pat : List Char) : List Char → Bool
  | [] => pat.isEmpty
  | c :: rest => isPrefixL pat (c :: rest) || containsL pat rest

/-- Python's `pat in s` substring test on strings. -/
def strContains (s pat : String) : Bool :=
  containsL pat.data s.data

/-- Models `urllib.parse.urlparse` + reassembly as done in `find_next_page`:
`f"{scheme}://{netloc}{path}"` is the URL up to (excluding) its query string.
(The URLs this crawler handles carry no fragment.) -/
def stripQuery (url : String) : String :=
  String.mk (url.data.takeWhile (fun c => c != ('?' : Char)))

/-- Drop the last path segment, keeping the trailing slash. -/
def dropLastSegment (cs : List Char) : List Char :=
  (cs.reverse.dropWhile (fun c => c != ('/' : Char))).reverse

/-- Models `urllib.parse.urljoin` restricted to the reference shapes the
site's pagination hrefs take: absolute URLs (contain `://`), query-only
references (start with `?`, replacing the base's query), and bare relative
references (replace the base's last path segment). -/
def urljoin (base href : String) : String :=
  if strContains href ("://") then href
  else if isPrefixL (("?").data) href.data then stripQuery base ++ href
  else String.mk (dropLastSegment (stripQuery base).data) ++ href

namespace Listing

/-- An `<a>` tag as read by the listing extractor: its stripped text and its
optional `href` attribute (`tag['href']` raises `KeyError` when absent). -/
structure ATag where
  text : String
  href : Option String
deriving DecidableEq

/-- An `<h3 class="titulo-18">` node: `link.find('a')` yields the first
nested anchor, or `None`. -/
structure Heading where
  a : Option ATag
deriving DecidableEq

/-- Any `<a>` node of the page as seen by
`soup.find_all('a', href=lambda x: x and 'page=' in x)`:
only its optional `href` matters there. -/
structure Anchor where
  href : Option String
deriving DecidableEq

/-- The query results the listing crawler takes from a parsed page:
the `h3.titulo-18` headings and all anchors. -/
structure PageDoc where
  headings : List Heading
  anchors : List Anchor
deriving DecidableEq

/-- A listing record as built at senaiwebcrawler.py lines 51-54: both keys
are always present in an emitted record. -/
structure Record where
  idea_titulo : String
  idea_url : String
deriving DecidableEq

/-- Embeds `SenaiWebCrawler.extract_idea_data` (senaiwebcrawler.py 43-62).
Returns the emitted records in order, together with the number of logged
warnings.  Per node: a missing nested anchor makes `link.find('a').get_text`
raise `AttributeError`; a missing `href` makes `link.find('a')['href']`
raise `KeyError`; either is caught, a warning is logged, and the node is
skipped (`continue`) — the whole record is discarded, both keys or none. -/
def extract_idea_data : List Heading → List Record × Nat
  | [] => ([], 0)
  | h :: hs =>
    let rest := extract_idea_data hs
    match h.a with
    | none => (rest.1, rest.2 + 1)
    | some a =>
      match a.href with
      | none => (rest.1, rest.2 + 1)
      | some u => (⟨a.text, u⟩ :: rest.1, rest.2)

/-- The anchors selected by
`soup.find_all('a', href=lambda x: x and 'page=' in x)`: anchors that have a
truthy (non-empty) `href` containing the substring `page=`. -/
def paginationLinks (doc : PageDoc) : List String :=
  doc.anchors.filterMap (fun an =>
    match an.href with
    | some h0 => if h0 != ("") && strContains h0 ("page=") then some h0 else none
    | none => none)

/-- The literal `f'page={n}'`. -/
def pageTok (n : Nat) : String := ("page=") ++ toString n

/-- Embeds `SenaiWebCrawler.find_next_page` (senaiwebcrawler.py 64-99; the
copy at ideia_senaiwebcrawler.py 73-108 is identical).  Returns the next-URL
option together with the URLs fetched by the fallback probe.  The anchor
scan returns the first pagination link whose href contains
`page=<current_page+1>` as a substring, resolved against `base_url`.  The
fallback builds `base_url` stripped of its query plus `?page=<n+1>` and
fetches it; it then evaluates `self.extract_user_data(test_soup)` — a method
that does not exist on the class — so when the probe fetch succeeds the
attribute lookup raises `AttributeError`, the bare `except` swallows it, and
the fallback returns `None` in every case. -/
def find_next_page (fetch : String → Option PageDoc) (base_url : String)
    (doc : PageDoc) (current_page : Nat) : Option String × List String :=
  let links := paginationLinks doc
  let scan := if links.isEmpty then none
              else links.find? (fun h0 => strContains h0 (pageTok (current_page + 1)))
  match scan with
  | some h0 => (some (urljoin base_url h0), [])
  | none =>
    let next_url := stripQuery base_url ++ ("?page=") ++ toString (current_page + 1)
    match fetch next_url with
    | none => (none, [next_url])
    | some _ => (none, [next_url])

/-- The `all_data` dictionary of `crawl_all_pages`
(senaiwebcrawler.py 102-106). -/
structure CrawlData where
  ideias : List Record
  total_paginas : Nat
  total_ideias : Nat
deriving DecidableEq

/-- The four ways the sequential crawl loop stops: the three `break`s and
exhaustion of the `while current_page <= max_pages` guard. -/
inductive StopReason where
  | fetchFail
  | noIdeas
  | noNextPage
  | maxPages
deriving DecidableEq

/-- Trace of a crawl: the final `all_data`, the snapshot of `all_data` at
the end of each loop iteration that appended records (the mid-crawl
observation points), the records extracted per successful page, the number
of fetch-and-extract cycles performed by the loop, and the stop reason. -/
structure LoopOut where
  final : CrawlData
  states : List CrawlData
  pages : List (List Record)
  cycles : Nat
  reason : StopReason
deriving DecidableEq

/-- The `while current_page <= max_pages` loop of `crawl_all_pages`
(senaiwebcrawler.py 111-139), with `fuel = max_pages - current_page + 1`
remaining admissible iterations.  Each iteration: fetch (break on failure),
extract (break on zero records), extend `ideias` and set `total_paginas`
(the snapshot recorded in `states`), resolve the next page (break on none),
advance.  `total_ideias` is not touched inside the loop. -/
def crawl_go (fetch : String → Option PageDoc) (base_url : String) :
    Nat → Nat → String → CrawlData → LoopOut
  | 0, _, _, acc => ⟨acc, [], [], 0, .maxPages⟩
  | fuel + 1, current_page, current_url, acc =>
    match fetch current_url with
    | none => ⟨acc, [], [], 1, .fetchFail⟩
    | some doc =>
      let ideas := (extract_idea_data doc.headings).1
      if ideas.isEmpty then ⟨acc, [], [], 1, .noIdeas⟩
      else
        let acc' : CrawlData := ⟨acc.ideias ++ ideas, current_page, acc.total_ideias⟩
        match (find_next_page fetch base_url doc current_page).1 with
        | none => ⟨acc', [acc'], [ideas], 1, .noNextPage⟩
        | some next_url =>
          let out := crawl_go fetch base_url fuel (current_page + 1) next_url acc'
          ⟨out.final, acc' :: out.states, ideas :: out.pages, out.cycles + 1, out.reason⟩

/-- Embeds `SenaiWebCrawler.crawl_all_pages` (senaiwebcrawler.py 101-143):
runs the loop from page 1 at `base_url` with the zero-initialised
`all_data`, then performs the final
`all_data['total_ideias'] = len(all_data['ideias'])` assignment. -/
def crawl_all_pages (fetch : String → Option PageDoc) (base_url : String)
    (max_pages : Nat) : LoopOut :=
  let out := crawl_go fetch base_url max_pages 1 base_url ⟨[], 0, 0⟩
  ⟨⟨out.final.ideias, out.final.total_paginas, out.final.ideias.length⟩,
    out.states, out.pages, out.cycles, out.reason⟩

end Listing

/-- A JSON value, as produced by `json.dump` / consumed by `json.load`. -/
inductive Json where
  | str (s : String)
  | num (n : Nat)
  | arr (xs : List Json)
  | obj (fields : List (String × Json))

/-- Python dict key lookup on a JSON object's field list (insertion order,
first match). -/
def lookupField (fs : List (String × Json)) (k : String) : Option Json :=
  (fs.find? (fun p => p.1 == k)).map (fun p => p.2)

/-- The JSON object `json.dump` writes for one listing record
(`{'idea_titulo': ..., 'idea_url': ...}`). -/
def recordToJson (r : Listing.Record) : Json :=
  .obj [(("idea_titulo"), .str r.idea_titulo), (("idea_url"), .str r.idea_url)]

/-- The JSON object `json.dump` writes for `all_data`
(`{'ideias': [...], 'total_paginas': n, 'total_ideias': n}`). -/
def dataToJson (d : Listing.CrawlData) : Json :=
  .obj [(("ideias"), .arr (d.ideias.map recordToJson)),
        (("total_paginas"), .num d.total_paginas),
        (("total_ideias"), .num d.total_ideias)]

/-- Embeds the JSON half of `SenaiWebCrawler.save_to_files`
(senaiwebcrawler.py 145-161): the saved file, once re-read, parses back to
exactly the dumped tree (`json.dump`/`json.load` round-tripping is the
spec's black-box sink).  The result is the stored file in the encoding the
loader consumes: `some (some j)` = present and parseable. -/
def save_to_files (d : Listing.CrawlData) : Option (Option Json) :=
  some (some (dataToJson d))

/-- The possible outcomes of `json_extract_links`: the collected link list
(`return ideia_links`), the empty dict literal (`return {}`) from the
`except (FileNotFoundError, json.JSONDecodeError)` handler, or an uncaught
exception escaping the function. -/
inductive LoadOutcome where
  | links (ls : List Json)
  | emptyDict
  | raised (e : String)

/-- The `for ideia in ideia_list['ideias']` loop of `json_extract_links`:
append `ideia['idea_url']` for each element; a non-dict element raises
`TypeError` and a missing key raises `KeyError`, neither of which is caught
by the handler (it only catches `FileNotFoundError`/`JSONDecodeError`). -/
def collectLinks : List Json → Except String (List Json)
  | [] => .ok []
  | j :: rest =>
    match j with
    | .obj fs =>
      match lookupField fs ("idea_url") with
      | some v => (collectLinks rest).map (fun ls => v :: ls)
      | none => .error ("KeyError")
    | _ => .error ("TypeError")

/-- Embeds `json_extract_links` (ideia_senaiwebcrawler.py 162-174).  Input:
`none` = file missing (`FileNotFoundError`), `some none` = file present but
unparseable (`json.JSONDecodeError`), `some (some j)` = parsed value `j`.
Both caught exceptions produce `return {}` — an empty dict, not a list. -/
def json_extract_links (file : Option (Option Json)) : LoadOutcome :=
  match file with
  | none => .emptyDict
  | some none => .emptyDict
  | some (some j) =>
    match j with
    | .obj fs =>
      match lookupField fs ("ideias") with
      | some (.arr items) =>
        match collectLinks items with
        | .ok ls => .links ls
        | .error e => .raised e
      | some _ => .raised ("TypeError")
      | none => .raised ("KeyError")
    | _ => .raised ("TypeError")

namespace Detail

/-- A `<div>` as queried by the detail extractor: its attributes (as parsed
from the HTML — keys like `class` and `id`), its `<h2>` descendants and its
`<p>` descendants in document order. -/
structure Div where
  attrs : List (String × String)
  h2s : List String
  ps : List String
deriving DecidableEq

/-- A parsed detail page: the `<div>` nodes `soup.find('div', ...)` scans. -/
structure DetailDoc where
  divs : List Div
deriving DecidableEq

/-- `soup.find('div', <attribute filter>)`: first div whose attribute named
`key` equals `val` (BeautifulSoup passes `None` to the filter lambda for a
tag lacking the attribute, and `value == '...'` is then `False`). -/
def findDiv (doc : DetailDoc) (key val : String) : Option Div :=
  doc.divs.find? (fun d => d.attrs.lookup key == some val)

/-- The detail record the `try` block at ideia_senaiwebcrawler.py 56-62
attempts to build. -/
structure DetailRecord where
  idea_titulo : String
  idea_estado : String
  idea_departamento : String
  idea_demanda : String
deriving DecidableEq

/-- The `try` block of the detail `extract_idea_data`: builds the dict
literal field by field, in source order.  `destaque_tag.find('h2')` on
`None` or `.get_text` on a missing `<h2>` raise `AttributeError`;
`detalhes_tag.find('p')` on `None` raises `AttributeError`; subscripting
the found `<p>` Tag with the integer `1` (`detalhes_tag.find('p')[1]`)
looks the key `1` up in the tag's attribute dict and always raises
`KeyError` (HTML attribute keys are strings), so the record can never be
completed. -/
def tryBuild (destaque_tag detalhes_tag : Option Div) : Except String DetailRecord :=
  match destaque_tag with
  | none => .error ("AttributeError")
  | some d =>
    match d.h2s.head? with
    | none => .error ("AttributeError")
    | some _titulo =>
      match detalhes_tag with
      | none => .error ("AttributeError")
      | some dd =>
        match dd.ps.head? with
        | none => .error ("AttributeError")
        | some _p => .error ("KeyError")

/-- Embeds `SenaiWebCrawler.extract_idea_data` of the detail crawler
(ideia_senaiwebcrawler.py 42-71).  `destaque` is located by
`class_=lambda v: v == 'destaque'`; the four other regions by
`id_=lambda v: v == '...'` — `id_` is an attribute filter on the literal
attribute name `id_`, which no parsed HTML tag carries, so those lookups
find nothing on real documents.  Any exception in the `try` block is caught
and logged as one warning.  Even on a hypothetical success the
`ideas_data.append(idea_data)` line is commented out, so the returned list
is always empty.  Returns (records, warning count). -/
def extract_idea_data (doc : DetailDoc) : List DetailRecord × Nat :=
  let destaque_tag := findDiv doc ("class") ("destaque")
  let detalhes_tag := findDiv doc ("id_") ("detalhes")
  let _equipe_tag := findDiv doc ("id_") ("equipe")
  let _comentarios_tag := findDiv doc ("id_") ("comentarios")
  let _complementos_tag := findDiv doc ("id_") ("complementos")
  match tryBuild destaque_tag detalhes_tag with
  | .ok _r => ([], 0)
  | .error _e => ([], 1)

/-- The `all_data` dictionary of the detail crawler's `crawl_all_pages`. -/
structure DCrawlData where
  ideias : List DetailRecord
  total_paginas : Nat
  total_ideias : Nat
deriving DecidableEq

/-- Embeds `SenaiWebCrawler.crawl_all_pages` of the detail crawler
(ideia_senaiwebcrawler.py 110-142).  There is no loop: the body fetches
`base_url` once (in link-list usage, `main` passes the whole link list as
`base_url`), and when the fetch fails it still calls
`extract_idea_data(None)`, whose first statement `soup.find('div', ...)`
raises `AttributeError` outside any `try` — the exception escapes
`crawl_all_pages`.  On a successful fetch it extends `ideias` with the
extraction result, sets `total_paginas = 1`, sets
`total_ideias = len(ideias)` and returns.  The second component of the
result is the list of URLs fetched. -/
def crawl_all_pages (fetch : String → Option DetailDoc) (base_url : String) :
    Except String (DCrawlData × List String) :=
  match fetch base_url with
  | none => .error ("AttributeError")
  | some doc =>
    let ideas := (extract_idea_data doc).1
    .ok (⟨ideas, 1, ideas.length⟩, [base_url])

end Detail

namespace Listing

/-- Loop invariant: the final `ideias` is the starting accumulator followed
by the concatenation of the per-page extractions, in page order. -/
theorem crawl_go_final_ideias (fetch : String → Option PageDoc) (base : String) :
    ∀ (fuel cur : Nat) (url : String) (acc : CrawlData),
      (crawl_go fetch base fuel cur url acc).final.ideias
        = acc.ideias ++ (crawl_go fetch base fuel cur url acc).pages.flatten := by
  intro fuel
  induction fuel with
  | zero => intro cur url acc; simp [crawl_go]
  | succ n ih =>
    intro cur url acc
    simp only [crawl_go]
    cases hf : fetch url with
    | none => simp
    | some doc =>
      simp only []
      cases hie : (extract_idea_data doc.headings).1.isEmpty with
      | true => simp
      | false =>
        simp only [Bool.false_eq_true, if_false]
        cases hnp : (find_next_page fetch base doc cur).1 with
        | none => simp
        | some next_url => simp [ih, List.append_assoc]

/-- Loop invariant: `total_ideias` is never written inside the loop — the
final accumulator and every recorded mid-crawl snapshot carry the entry
value unchanged. -/
theorem crawl_go_total_ideias (fetch : String → Option PageDoc) (base : String) :
    ∀ (fuel cur : Nat) (url : String) (acc : CrawlData),
      (crawl_go fetch base fuel cur url acc).final.total_ideias = acc.total_ideias
      ∧ ∀ s, s ∈ (crawl_go fetch base fuel cur url acc).states →
          s.total_ideias = acc.total_ideias := by
  intro fuel
  induction fuel with
  | zero => intro cur url acc; simp [crawl_go]
  | succ n ih =>
    intro cur url acc
    simp only [crawl_go]
    cases hf : fetch url with
    | none => simp
    | some doc =>
      simp only []
      cases hie : (extract_idea_data doc.headings).1.isEmpty with
      | true => simp
      | false =>
        simp only [Bool.false_eq_true, if_false]
        cases hnp : (find_next_page fetch base doc cur).1 with
        | none => simp
        | some next_url =>
          constructor
          · simpa using (ih (cur + 1) next_url ⟨acc.ideias ++ (extract_idea_data doc.headings).1, cur, acc.total_ideias⟩).1
          · intro s hs
            simp only [List.mem_cons] at hs
            cases hs with
            | inl h => subst h; rfl
            | inr h => simpa using (ih (cur + 1) next_url ⟨acc.ideias ++ (extract_idea_data doc.headings).1, cur, acc.total_ideias⟩).2 s (by simpa using h)

/-- Budget invariant: the loop performs at most `fuel` fetch-and-extract
cycles, and exactly `fuel` of them when it stops by exhausting the page
budget. -/
theorem crawl_go_cycles (fetch : String → Option PageDoc) (base : String) :
    ∀ (fuel cur : Nat) (url : String) (acc : CrawlData),
      (crawl_go fetch base fuel cur url acc).cycles ≤ fuel
      ∧ ((crawl_go fetch base fuel cur url acc).reason = .maxPages →
          (crawl_go fetch base fuel cur url acc).cycles = fuel) := by
  intro fuel
  induction fuel with
  | zero => intro cur url acc; simp [crawl_go]
  | succ n ih =>
    intro cur url acc
    simp only [crawl_go]
    cases hf : fetch url with
    | none => simp
    | some doc =>
      simp only []
      cases hie : (extract_idea_data doc.headings).1.isEmpty with
      | true => simp
      | false =>
        simp only [Bool.false_eq_true, if_false]
        cases hnp : (find_next_page fetch base doc cur).1 with
        | none => simp
        | some next_url =>
          have h := ih (cur + 1) next_url ⟨acc.ideias ++ (extract_idea_data doc.headings).1, cur, acc.total_ideias⟩
          constructor
          · simpa using Nat.add_le_add_right (by simpa using h.1) 1
          · intro hr
            have := h.2 (by simpa using hr)
            simpa using this

end Listing

/-- Helper: `collectLinks` over the JSON encoding of listing records
projects each record's `idea_url`, in order. -/
theorem collectLinks_map (l : List Listing.Record) :
    collectLinks (l.map recordToJson) = .ok (l.map (fun r => Json.str r.idea_url)) := by
  induction l with
  | nil => rfl
  | cons r t ih =>
    have hk : lookupField [(("idea_titulo"), Json.str r.idea_titulo),
        (("idea_url"), Json.str r.idea_url)] ("idea_url") = some (Json.str r.idea_url) := rfl
    simp [collectLinks, recordToJson, hk, ih, Except.map]

open Listing

/-- The page served for index `k` in the budget scenario: one extractable
record and a next-page anchor `?page=<k+1>`. -/
def seqDoc (k : Nat) : PageDoc :=
  ⟨[⟨some ⟨("t") ++ toString k, some (("u") ++ toString k)⟩⟩],
   [⟨some (("?page=") ++ toString (k + 1))⟩]⟩

/-- The seed URL used by the concrete scenarios. -/
def seqBase : String := ("http://s/p?page=1")

/-- An origin whose pages 1-3 each yield a record and advertise the next
page. -/
def seqFetch : String → Option PageDoc := fun url =>
  if url = ("http://s/p?page=1") then some (seqDoc 1)
  else if url = ("http://s/p?page=2") then some (seqDoc 2)
  else if url = ("http://s/p?page=3") then some (seqDoc 3)
  else none

/-- An origin on which every fetch fails. -/
def failFetch : String → Option PageDoc := fun _ => none

/-- An origin whose pages parse but contain no extractable record. -/
def emptyFetch : String → Option PageDoc := fun _ => some ⟨[], []⟩

/-- A page with one extractable record and no pagination anchors. -/
def lastDoc : PageDoc := ⟨[⟨some ⟨("t"), some ("u")⟩⟩], []⟩

/-- An origin serving `lastDoc` at the seed and nothing elsewhere (so the
pagination probe finds no page 2). -/
def noNextFetch : String → Option PageDoc := fun url =>
  if url = seqBase then some lastDoc else none

/-- An origin serving a page with an extractable record at the probe URL
`http://s/p?page=2`. -/
def probeFetch : String → Option PageDoc := fun url =>
  if url = ("http://s/p?page=2") then some lastDoc else none

/-- C1 (counterexample): a crawl of one successful page.  Its single
mid-crawl observation state holds one record while `total_ideias` is still
0, so the counter does not equal `len(ideias)` at that observation point:
the equality is established only by the final assignment after the loop. -/
theorem crawl_midcrawl_counter_stale_cex :
    (crawl_all_pages noNextFetch seqBase 5).states = [⟨[⟨("t"), ("u")⟩], 1, 0⟩]
    ∧ (CrawlData.mk [⟨("t"), ("u")⟩] 1 0).total_ideias
        ≠ (CrawlData.mk [⟨("t"), ("u")⟩] 1 0).ideias.length := by
  exact ⟨by decide, by decide⟩

/-- C1 (amended): in `crawl_all_pages` the metadata counter `total_ideias`
equals `len(ideias)` in the final returned result, but not at mid-crawl
observation points: inside the loop `total_ideias` keeps its initial value
0, and is only reconciled by the assignment after the loop. -/
theorem crawl_total_ideias_final_only :
    ∀ (fetch : String → Option PageDoc) (base_url : String) (max_pages : Nat),
      ((crawl_all_pages fetch base_url max_pages).final.total_ideias
        = (crawl_all_pages fetch base_url max_pages).final.ideias.length)
      ∧ ∀ s, s ∈ (crawl_all_pages fetch base_url max_pages).states →
          s.total_ideias = 0 := by
  intro fetch base_url max_pages
  constructor
  · simp [crawl_all_pages]
  · intro s hs
    have h := (Listing.crawl_go_total_ideias fetch base_url max_pages 1 base_url
      ⟨[], 0, 0⟩).2 s (by simpa [crawl_all_pages] using hs)
    simpa using h

/-- Witness for the amended C1 theorem at a concrete crawl and a concrete
mid-crawl state. -/
theorem crawl_total_ideias_final_only_witness :
    (CrawlData.mk [⟨("t"), ("u")⟩] 1 0).total_ideias = 0 :=
  (crawl_total_ideias_final_only noNextFetch seqBase 5).2
    ⟨[⟨("t"), ("u")⟩], 1, 0⟩ (by decide)

/-- C2: the pagination fallback never returns the constructed URL, even
when the probe fetch yields a page with extractable records, because the
probe's extraction call names `extract_user_data`, a method that does not
exist; the `AttributeError` is swallowed by the bare `except` and the
fallback returns `None`.  Here: a document with no `page=` anchors, a probe
URL whose page holds one extractable record — yet the result is `none`
(after performing the probe fetch). -/
theorem find_next_page_fallback_never_accepts :
    ((extract_idea_data lastDoc.headings).1 ≠ [])
    ∧ find_next_page probeFetch ("http://s/p?page=1") lastDoc 1
        = (none, [("http://s/p?page=2")]) := by
  exact ⟨by decide, by decide⟩

/-- A well-formed detail page: a `div.destaque` with a first heading, and a
`div#detalhes` with four paragraphs (so the 2nd, 3rd and 4th paragraphs the
source indexes all exist). -/
def detailPage : Detail.DetailDoc :=
  ⟨[⟨[(("class"), ("destaque"))], [("Titulo da Ideia")], []⟩,
    ⟨[(("id"), ("detalhes"))], [],
      [("p0"), ("Estado X"), ("Depto Y"), ("Demanda Z")]⟩]⟩

/-- C3: on a fully well-formed detail page the detail-mode
`extract_idea_data` still returns no record and logs one warning: the
`detalhes` region is looked up by the attribute name `id_` (which no parsed
tag has), `find('p')[1]` subscripts a Tag with an integer (always raising),
and the `append` of the built record is commented out. -/
theorem detail_extract_returns_no_record :
    Detail.extract_idea_data detailPage = ([], 1) := by
  decide

/-- A string standing for the whole pre-collected link list, which `main`
passes to the crawler as its `base_url`. -/
def listUrl : String := ("[u1, u2]")

/-- A fetch oracle that succeeds everywhere with a parseable detail page. -/
def okDetailFetch : String → Option Detail.DetailDoc := fun _ => some detailPage

/-- C5: the detail crawler's `crawl_all_pages` does not iterate the link
list at all — it performs exactly one fetch, of `base_url` itself, and when
that fetch fails it calls `extract_idea_data(None)`, whose unguarded
`soup.find` raises `AttributeError` out of the controller instead of
skipping to a next URL. -/
theorem detail_crawl_single_fetch_and_crash :
    Detail.crawl_all_pages (fun _ => none) listUrl = .error ("AttributeError")
    ∧ Detail.crawl_all_pages okDetailFetch listUrl = .ok (⟨[], 1, 0⟩, [listUrl]) := by
  exact ⟨rfl, rfl⟩

/-- C6 (counterexample): a heading whose nested anchor has text (the
required title extraction succeeds) but no `href` (the optional url
extraction fails).  The extractor emits no record at all — the node is
discarded with a warning — rather than emitting a title-only record with
the `idea_url` key absent. -/
theorem extract_optional_failure_discards_cex :
    extract_idea_data [⟨some ⟨("T"), none⟩⟩] = ([], 1) := by
  decide

/-- C6 (amended): per node, a record is emitted iff both the nested anchor
and its `href` are present (both keys are built inside one `try`); any
failure — of the required title lookup or of the optional `href` lookup —
discards the whole record for that node and logs one warning.  In
particular a record is only emitted if its required field extraction
succeeded. -/
theorem extract_record_emission_characterization :
    ∀ hs : List Heading,
      (extract_idea_data hs).1
        = hs.filterMap (fun h =>
            match h.a with
            | none => none
            | some a =>
              match a.href with
              | none => none
              | some u => some ⟨a.text, u⟩)
      ∧ (extract_idea_data hs).2
        = (hs.filter (fun h =>
            match h.a with
            | none => true
            | some a => a.href.isNone)).length := by
  intro hs
  induction hs with
  | nil => simp [extract_idea_data]
  | cons h t ih =>
    obtain ⟨ih1, ih2⟩ := ih
    rcases h with ⟨a⟩
    cases a with
    | none => constructor <;> simp [extract_idea_data, ih1, ih2]
    | some at0 =>
      rcases at0 with ⟨tx, hr⟩
      cases hr with
      | none => constructor <;> simp [extract_idea_data, ih1, ih2]
      | some u => constructor <;> simp [extract_idea_data, ih1, ih2]

/-- C7: for a listing page with three title headings of which exactly one
has no nested link (the other two carrying linked anchors), extraction
returns exactly the two linked records in order and logs exactly one
warning, whatever position the linkless heading occupies; the linkless node
does not abort the page. -/
theorem listing_two_records_one_warning :
    ∀ (t1 u1 t2 u2 : String),
      (extract_idea_data [⟨none⟩, ⟨some ⟨t1, some u1⟩⟩, ⟨some ⟨t2, some u2⟩⟩]
        = ([⟨t1, u1⟩, ⟨t2, u2⟩], 1))
      ∧ (extract_idea_data [⟨some ⟨t1, some u1⟩⟩, ⟨none⟩, ⟨some ⟨t2, some u2⟩⟩]
        = ([⟨t1, u1⟩, ⟨t2, u2⟩], 1))
      ∧ (extract_idea_data [⟨some ⟨t1, some u1⟩⟩, ⟨some ⟨t2, some u2⟩⟩, ⟨none⟩]
        = ([⟨t1, u1⟩, ⟨t2, u2⟩], 1)) := by
  intro t1 u1 t2 u2
  refine ⟨?_, ?_, ?_⟩ <;> simp [extract_idea_data]

/-- C4: with `max_pages = 3` against an origin whose every page yields
records and advertises the next page, the sequential loop performs exactly
3 fetch-and-extract cycles and stops on the exhausted budget; and in
general the loop stops exactly for one of the four reasons — failed fetch,
zero extracted records, no next page, or budget reached — never exceeds
the budget, performs exactly `max_pages` cycles when the budget is the stop
reason, and in every case returns the records accumulated from the
successfully processed pages. -/
theorem crawl_budget_and_stop_policy :
    ((crawl_all_pages seqFetch seqBase 3).cycles = 3
      ∧ (crawl_all_pages seqFetch seqBase 3).reason = .maxPages)
    ∧ ((crawl_all_pages failFetch seqBase 5).reason = .fetchFail
      ∧ (crawl_all_pages failFetch seqBase 5).final.ideias = [])
    ∧ ((crawl_all_pages emptyFetch seqBase 5).reason = .noIdeas
      ∧ (crawl_all_pages emptyFetch seqBase 5).final.ideias = [])
    ∧ ((crawl_all_pages noNextFetch seqBase 5).reason = .noNextPage
      ∧ (crawl_all_pages noNextFetch seqBase 5).final.ideias = [⟨("t"), ("u")⟩])
    ∧ (∀ (fetch : String → Option PageDoc) (base_url : String) (max_pages : Nat),
        (crawl_all_pages fetch base_url max_pages).cycles ≤ max_pages
        ∧ ((crawl_all_pages fetch base_url max_pages).reason = .maxPages →
            (crawl_all_pages fetch base_url max_pages).cycles = max_pages)
        ∧ (crawl_all_pages fetch base_url max_pages).final.ideias
            = (crawl_all_pages fetch base_url max_pages).pages.flatten) := by
  refine ⟨⟨by decide, by decide⟩, ⟨by decide, by decide⟩, ⟨by decide, by decide⟩,
    ⟨by decide, by decide⟩, ?_⟩
  intro fetch base_url max_pages
  refine ⟨?_, ?_, ?_⟩
  · simpa [crawl_all_pages] using
      (Listing.crawl_go_cycles fetch base_url max_pages 1 base_url ⟨[], 0, 0⟩).1
  · intro hr
    simpa [crawl_all_pages] using
      (Listing.crawl_go_cycles fetch base_url max_pages 1 base_url ⟨[], 0, 0⟩).2
        (by simpa [crawl_all_pages] using hr)
  · simpa [crawl_all_pages] using
      Listing.crawl_go_final_ideias fetch base_url max_pages 1 base_url ⟨[], 0, 0⟩

/-- Witness for the budget theorem: the budget-reached hypothesis is
discharged at the concrete 3-page origin. -/
theorem crawl_budget_and_stop_policy_witness :
    (crawl_all_pages seqFetch seqBase 3).cycles = 3 :=
  (crawl_budget_and_stop_policy.2.2.2.2 seqFetch seqBase 3).2.1 (by decide)

/-- C8: saving a crawl result and re-hydrating it with the link loader
yields exactly the `idea_url` of each record of the result, in the original
order, with no duplicates introduced or removed. -/
theorem save_load_roundtrip :
    ∀ d : Listing.CrawlData,
      json_extract_links (save_to_files d)
        = .links (d.ideias.map (fun r => Json.str r.idea_url)) := by
  intro d
  have hk : lookupField [(("ideias"), Json.arr (d.ideias.map recordToJson)),
      (("total_paginas"), Json.num d.total_paginas),
      (("total_ideias"), Json.num d.total_ideias)] ("ideias")
      = some (Json.arr (d.ideias.map recordToJson)) := rfl
  simp [save_to_files, json_extract_links, dataToJson, hk, collectLinks_map]

/-- C9 (counterexample): on a missing input file the loader returns the
empty dict literal `{}`, which is not the empty link sequence `[]` the
claim states (the success path returns a list, the failure path a dict). -/
theorem load_links_empty_dict_cex :
    json_extract_links none = .emptyDict
    ∧ LoadOutcome.emptyDict ≠ LoadOutcome.links [] := by
  exact ⟨rfl, fun h => LoadOutcome.noConfusion h⟩

/-- C9 (amended): for every missing (FileNotFoundError) or corrupt
(JSONDecodeError) input file, `json_extract_links` catches the exception
and returns the empty dict `{}` — an empty, falsy collection that iterates
to nothing — and does not raise past its own boundary. -/
theorem load_links_errors_yield_empty_dict :
    json_extract_links none = .emptyDict
    ∧ json_extract_links (some none) = .emptyDict :=
  ⟨rfl, rfl⟩

/-- C10: in the anchor scan, a next-page link is accepted by a plain
substring test: for every document and current page `n`, the first
pagination anchor whose href contains the text `page=<n+1>` is returned
resolved against the base URL — including an anchor for `page=21` when the
current page is 1, since `page=2` occurs inside `page=21`. -/
theorem find_next_page_substring_acceptance :
    (∀ (fetch : String → Option PageDoc) (base_url h0 : String)
        (doc : PageDoc) (n : Nat),
        (paginationLinks doc).find? (fun s => strContains s (pageTok (n + 1)))
          = some h0 →
        (find_next_page fetch base_url doc n).1 = some (urljoin base_url h0))
    ∧ strContains ("?page=21") (pageTok 2) = true
    ∧ (find_next_page failFetch seqBase (PageDoc.mk [] [⟨some ("?page=21")⟩]) 1).1
        = some (urljoin seqBase ("?page=21")) := by
  refine ⟨?_, by decide, by decide⟩
  intro fetch base_url h0 doc n hfind
  cases hl : paginationLinks doc with
  | nil => rw [hl] at hfind; simp at hfind
  | cons x xs =>
    rw [hl] at hfind
    simp [find_next_page, hl, hfind]

/-- Witness for the substring-acceptance theorem: the `page=21` anchor is
accepted on current page 1. -/
theorem find_next_page_substring_acceptance_witness :
    (find_next_page failFetch seqBase (PageDoc.mk [] [⟨some ("?page=21")⟩]) 1).1
      = some (urljoin seqBase ("?page=21")) :=
  find_next_page_substring_acceptance.1 failFetch seqBase ("?page=21")
    (PageDoc.mk [] [⟨some ("?page=21")⟩]) 1 (by decide)
